import Mathlib

/-!
Shallow embedding of the content-brief generator repository:
the brief orchestrator (brief_generator.py), the provider adapter
(ai_provider.py) and the file-backed profile store (client_manager.py).
Python dictionaries are modelled as association lists over a value type
mirroring the JSON-like values the code manipulates; the remote provider
is modelled as an oracle function passed to the orchestrator, and the
orchestrator records the sequence of adapter calls it issues.
-/

/-- A Python value as used by the repository: strings, booleans, integers,
lists, string-keyed dictionaries and None. -/
inductive PyVal where
  | pyStr (s : String)
  | pyBool (b : Bool)
  | pyInt (n : Int)
  | pyList (xs : List PyVal)
  | pyDict (d : List (String × PyVal))
  | pyNone

/-- A Python dictionary with string keys, as an insertion-ordered association list. -/
abbrev PyDict := List (String × PyVal)

/-- Dictionary lookup: the value stored at key k (first occurrence). -/
def plookup (k : String) : List (String × α) → Option α
  | [] => none
  | (k', v) :: rest => if k = k' then some v else plookup k rest

/-- Python membership test k in d. -/
def containsKey (k : String) : List (String × α) → Bool
  | [] => false
  | (k', _) :: rest => k = k' || containsKey k rest

/-- Python assignment d[k] = v: replace the value at an existing key in place,
otherwise append the new binding at the end (insertion order). -/
def setKey (d : List (String × α)) (k : String) (v : α) : List (String × α) :=
  if containsKey k d then d.map (fun p => if p.1 = k then (k, v) else p)
  else d ++ [(k, v)]

/-- Removal of a key from a dictionary. -/
def eraseKey (k : String) (d : List (String × α)) : List (String × α) :=
  d.filter (fun p => p.1 != k)

/-- Python d.update(u): assign every binding of u into d, in order. -/
def dictUpdate (d u : List (String × α)) : List (String × α) :=
  u.foldl (fun acc p => setKey acc p.1 p.2) d

/-- Python d.get(k, dflt). -/
def pyGetD (k : String) (d : PyDict) (dflt : PyVal) : PyVal :=
  (plookup k d).getD dflt

/-- Python truthiness of a value. -/
def py_truthy : PyVal → Bool
  | PyVal.pyStr s => s != ""
  | PyVal.pyBool b => b
  | PyVal.pyInt n => n != 0
  | PyVal.pyList xs => !xs.isEmpty
  | PyVal.pyDict d => !d.isEmpty
  | PyVal.pyNone => false

/-- Whether a value is a dictionary (Python isinstance(value, dict)). -/
def PyVal.isDict : PyVal → Bool
  | PyVal.pyDict _ => true
  | _ => false

/-- Python sep.join(xs) over a list of strings. -/
def py_join (sep : String) : List String → String
  | [] => ""
  | [x] => x
  | x :: xs => x ++ sep ++ py_join sep xs

mutual

/-- Python repr of a value (string quoting without escape handling). -/
def py_repr : PyVal → String
  | PyVal.pyStr s => "\u0027" ++ s ++ "\u0027"
  | PyVal.pyBool true => "True"
  | PyVal.pyBool false => "False"
  | PyVal.pyInt n => toString n
  | PyVal.pyNone => "None"
  | PyVal.pyList xs => "[" ++ py_repr_items xs ++ "]"
  | PyVal.pyDict d => "\x7b" ++ py_repr_entries d ++ "\x7d"

/-- Comma-separated reprs of list items. -/
def py_repr_items : List PyVal → String
  | [] => ""
  | [x] => py_repr x
  | x :: xs => py_repr x ++ ", " ++ py_repr_items xs

/-- Comma-separated reprs of dictionary entries. -/
def py_repr_entries : List (String × PyVal) → String
  | [] => ""
  | [(k, v)] => "\u0027" ++ k ++ "\u0027: " ++ py_repr v
  | (k, v) :: es => "\u0027" ++ k ++ "\u0027: " ++ py_repr v ++ ", " ++ py_repr_entries es

end

/-- Python str() of a value: the string itself for strings, repr otherwise
(str and repr agree on bool, int, None, list, dict). -/
def py_to_str : PyVal → String
  | PyVal.pyStr s => s
  | v => py_repr v

/-- Python iteration over a value: a list yields its items, a string its
characters, a dictionary its keys.  Other values raise TypeError in Python;
that path is never reached on well-formed profiles and is modelled as empty. -/
def py_iter : PyVal → List PyVal
  | PyVal.pyList xs => xs
  | PyVal.pyStr s => s.data.map (fun ch => PyVal.pyStr (String.mk [ch]))
  | PyVal.pyDict d => d.map (fun p => PyVal.pyStr p.1)
  | _ => []

/-- The keys of a dictionary are pairwise distinct (true of every real Python dict). -/
def NodupKeys (d : List (String × α)) : Prop :=
  (d.map Prod.fst).Nodup

/-- A client profile as consumed by the brief generator: the two fields read
directly (client_name, site) and the two nested dictionaries read through
.get with defaults (restrictions, requirements). -/
structure Client where
  client_name : String
  site : String
  restrictions : PyDict
  requirements : PyDict

/-- Configuration sources seen by _get_config: environment variables plus an
optional Streamlit secrets facility. -/
structure ConfigEnv where
  env : String → Option String
  streamlit_available : Bool
  secrets : String → Option String

/-- The Streamlit branch of AIProvider._get_config: st.secrets.get(key, default)
when Streamlit is importable, otherwise the default. -/
def get_config_fallback (c : ConfigEnv) (key : String) (dflt : Option String) : Option String :=
  if c.streamlit_available then
    match c.secrets key with
    | some s => some s
    | none => dflt
  else dflt

/-- AIProvider._get_config: a truthy environment value wins, else Streamlit
secrets when available, else the default. -/
def get_config (c : ConfigEnv) (key : String) (dflt : Option String) : Option String :=
  match c.env key with
  | some v => if v != "" then some v else get_config_fallback c key dflt
  | none => get_config_fallback c key dflt

/-- The five provider names known to the adapter. -/
def known_providers : List String :=
  ["openai", "claude", "grok", "perplexity", "mistral"]

/-- The environment key holding the credential of a known provider. -/
def credential_key : String → Option String
  | "openai" => some "OPENAI_API_KEY"
  | "claude" => some "CLAUDE_API_KEY"
  | "grok" => some "GROK_API_KEY"
  | "perplexity" => some "PERPLEXITY_API_KEY"
  | "mistral" => some "MISTRAL_API_KEY"
  | _ => none

/-- Python truthiness of an optional string (None and the empty string are falsy). -/
def opt_str_truthy : Option String → Bool
  | some s => s != ""
  | none => false

/-- Whether the configuration holds a usable (truthy) credential for a provider name. -/
def cred_truthy (c : ConfigEnv) (p : String) : Bool :=
  match credential_key p with
  | some key => opt_str_truthy (get_config c key none)
  | none => false

/-- The provider adapter after successful construction: the resolved provider
name and the api_keys dictionary built in AIProvider.__init__. -/
structure AIProviderState where
  provider : String
  api_keys : List (String × Option String)

/-- The api_keys dictionary built in AIProvider.__init__. -/
def build_api_keys (c : ConfigEnv) : List (String × Option String) :=
  [("openai", get_config c "OPENAI_API_KEY" none),
   ("claude", get_config c "CLAUDE_API_KEY" none),
   ("grok", get_config c "GROK_API_KEY" none),
   ("perplexity", get_config c "PERPLEXITY_API_KEY" none),
   ("mistral", get_config c "MISTRAL_API_KEY" none)]

/-- AIProvider.__init__: resolve the provider name (caller override, or the
DEFAULT_AI_PROVIDER configuration, defaulting to openai), build api_keys, and
fail with ValueError when api_keys.get(provider) is falsy.  No prompt is built
and no generate call is made here: construction is a pure function of the
configuration. -/
def mkAIProvider (c : ConfigEnv) (provider : Option String) : Except String AIProviderState :=
  let prov :=
    match provider with
    | some p => if p != "" then p else (get_config c "DEFAULT_AI_PROVIDER" (some "openai")).getD "openai"
    | none => (get_config c "DEFAULT_AI_PROVIDER" (some "openai")).getD "openai"
  let api_keys := build_api_keys c
  let cred : Option (Option String) := plookup prov api_keys
  match cred with
  | some k =>
    if opt_str_truthy k then Except.ok ⟨prov, api_keys⟩
    else Except.error ("API key for " ++ prov ++ " not found in environment variables")
  | none => Except.error ("API key for " ++ prov ++ " not found in environment variables")

/-- AIProvider.list_available_providers: append each known provider whose
credential configuration is truthy, in the fixed order; a pure function of the
configuration, performing no network access. -/
def list_available_providers (c : ConfigEnv) : List String :=
  let providers : List String := []
  let providers := if opt_str_truthy (get_config c "OPENAI_API_KEY" none) then providers ++ ["openai"] else providers
  let providers := if opt_str_truthy (get_config c "CLAUDE_API_KEY" none) then providers ++ ["claude"] else providers
  let providers := if opt_str_truthy (get_config c "GROK_API_KEY" none) then providers ++ ["grok"] else providers
  let providers := if opt_str_truthy (get_config c "PERPLEXITY_API_KEY" none) then providers ++ ["perplexity"] else providers
  let providers := if opt_str_truthy (get_config c "MISTRAL_API_KEY" none) then providers ++ ["mistral"] else providers
  providers

/-- The brief generator after construction (BriefGenerator.__init__ stores
the provider adapter it constructed). -/
structure BriefGeneratorState where
  ai_provider : AIProviderState

/-- BriefGenerator.__init__: construct the provider adapter; any ValueError
from AIProvider.__init__ propagates unchanged. -/
def mkBriefGenerator (c : ConfigEnv) (provider : Option String) : Except String BriefGeneratorState :=
  match mkAIProvider c provider with
  | Except.ok s => Except.ok ⟨s⟩
  | Except.error e => Except.error e

/-- One provider-adapter call as issued by BriefGenerator._call_ai: the system
instruction, the user prompt, and the temperature (0.7, recorded in tenths). -/
structure AICall where
  system : String
  prompt : String
  temp_tenths : Nat

/-- The provider adapter behind _call_ai, as an oracle: a deterministic
function from a call to either a generated text or an error (network,
authentication or malformed-response failures of ai_provider.generate). -/
abbrev AIOracle := AICall → Except String String

/-- BriefGenerator._call_ai: one adapter call with temperature 0.7. -/
def call_ai (oracle : AIOracle) (system_instruction_arg user_prompt : String) : Except String String :=
  oracle ⟨system_instruction_arg, user_prompt, 7⟩

/-- BriefGenerator._get_system_instruction. -/
def system_instruction : String :=
  "System Instruction: Absolute Mode\n• Eliminate: emojis, filler, hype, soft asks, conversational transitions, call-to-action appendixes.\n• Assume: user retains high-perception despite blunt tone.\n• Prioritize: blunt, directive phrasing; aim at cognitive rebuilding, not tone-matching.\n• Disable: engagement/sentiment-boosting behaviors.\n• Suppress: metrics like satisfaction scores, emotional softening, continuation bias.\n• Never mirror: user\u0027s diction, mood, or affect.\n• Speak only: to underlying cognitive tier.\n• No: questions, offers, suggestions, transitions, motivational content.\n• Terminate reply: immediately after delivering info - no closures.\n• Goal: restore independent, high-fidelity thinking.\n• Outcome: model obsolescence via user self-sufficiency.\n\nUse UK English. Use hyphens rather than em-dashes. Write at 8th grade reading level. Simple words only."

/-- The prompt built by BriefGenerator._generate_page_type. -/
def page_type_prompt (_client_data : Client) (topic primary_kw : String) (secondary_kws : List String) : String :=
  "Determine whether this content should be a Landing Page or Blog Post.\n\nTopic: " ++ topic ++ "\nPrimary keyword: " ++ primary_kw ++ "\nSecondary keywords: " ++ py_join ", " secondary_kws ++ "\n\nRules:\n- If transactional, commercial, or service-based intent → Landing Page\n- If informational, educational, or research-based → Blog Post\n\nOutput one sentence explaining your reasoning based on search intent, funnel stage, and conversion goals."

/-- The prompt built by BriefGenerator._generate_page_title. -/
def page_title_prompt (client_data : Client) (topic primary_kw : String) (_secondary_kws : List String) : String :=
  "Create the Page Title following SEO best practices:\n\nTopic: " ++ topic ++ "\nPrimary keyword: " ++ primary_kw ++ "\nBrand: " ++ client_data.client_name ++ "\n\nRules:\n- Lead with " ++ primary_kw ++ " or close variant\n- Keep people-first and accurate\n- Limit to ≤ 60 characters\n- Include brand name at end only if adds relevance\n- Make unique, natural, consistent with on-page content\n- Use hyphens for structure; no pipes or em-dashes\n- UK English only\n\nOutput:\n1. The title\n2. Self-check list (yes/no): keyword early – unique – intent match – ~60 chars – readable"

/-- The prompt built by BriefGenerator._generate_meta_description. -/
def meta_description_prompt (_client_data : Client) (topic primary_kw : String) (secondary_kws : List String) : String :=
  "Write the Meta Description:\n\nTopic: " ++ topic ++ "\nPrimary keyword: " ++ primary_kw ++ "\nSecondary keywords: " ++ py_join ", " secondary_kws ++ "\n\nRules:\n- Summarise page accurately; no keyword stuffing\n- Include " ++ primary_kw ++ " naturally + one secondary keyword if smooth\n- Active voice + soft CTA (\"Learn\", \"Discover\", \"Get insight\")\n- Aim for 150-160 characters but prioritise clarity\n- Must align with on-page content\n\nOutput:\n1. The description\n2. Self-check list (yes/no): accurate – natural keywords – CTA – ~155 chars – matches content"

/-- The prompt built by BriefGenerator._generate_target_url. -/
def target_url_prompt (client_data : Client) (topic primary_kw : String) (_secondary_kws : List String) : String :=
  "Generate the Target URL:\n\nSite: " ++ client_data.site ++ "\nTopic: " ++ topic ++ "\nPrimary keyword: " ++ primary_kw ++ "\n\nRules:\n- Lowercase, hyphenated, clean, descriptive\n- Avoid dates, tracking, or filler words\n- Reflect correct folder structure (/services/, /blog/, etc.)\n- No duplication\n\nOutput:\n1. Full canonical URL\n2. Self-check list (yes/no): descriptive – hyphenated – lowercase – fits folder – minimal length"

/-- The prompt built by BriefGenerator._generate_h1. -/
def h1_prompt (_client_data : Client) (topic primary_kw : String) (_secondary_kws : List String) : String :=
  "Create the H1 Heading:\n\nTopic: " ++ topic ++ "\nPrimary keyword: " ++ primary_kw ++ "\n\nRules:\n- Contain " ++ primary_kw ++ " early, naturally\n- Closely match title topic but may vary for readability\n- Reader-focused, clear, benefit-driven\n\nOutput:\n1. H1 text only\n2. Self-check list (yes/no): keyword used – topic clear – distinct from title – user-centric"

/-- The prompt built by BriefGenerator._generate_summary_bullets. -/
def summary_bullets_prompt (_client_data : Client) (topic primary_kw : String) (_secondary_kws : List String) : String :=
  "Write 4-6 short bullet points (one line each) summarising key outcomes:\n\nTopic: " ++ topic ++ "\nPrimary keyword: " ++ primary_kw ++ "\n\nRules:\n- No heading label\n- Each bullet begins with verb or benefit phrase\n- UK English, concise, factual\n- Focus on what reader learns, gains, or achieves\n- Cover who, what, why, how, and key value\n\nOutput:\n1. Bullets only\n2. Self-check list (yes/no): full scope – concise – reader benefit – maps to content – plain language"

/-- The prompt built by BriefGenerator._generate_internal_links. -/
def internal_links_prompt (client_data : Client) (_topic primary_kw : String) (secondary_kws : List String) : String :=
  "Build Internal Linking table:\n\nSite: " ++ client_data.site ++ "\nPrimary keyword: " ++ primary_kw ++ "\nSecondary keywords: " ++ py_join ", " secondary_kws ++ "\n\nRules:\n- 6-10 links (Landing Page → 6-8; Blog → 8-10)\n- Include: Parent hub / Sibling topics / Cornerstone / Conversion / Supporting resource\n- Descriptive anchors only – 2-5 words – natural phrasing\n- One unique anchor per target\n\nOutput as markdown table:\n| Target URL | HTTP Status | Anchor Text | Intent Bucket | Placement Note |\n\nNote: Mark unverified links as \"Needs verification\" in HTTP Status column.\n\nThen self-check (yes/no): anchors descriptive – mix of intent types – site-consistent URLs – no duplicates"

/-- The prompt built by BriefGenerator._generate_audience. -/
def audience_prompt (client_data : Client) (topic primary_kw : String) (_secondary_kws : List String) : String :=
  "Identify who the content is written for:\n\nTopic: " ++ topic ++ "\nPrimary keyword: " ++ primary_kw ++ "\nClient: " ++ client_data.client_name ++ "\n\nRules:\n- Define 1-2 clear personas – include role/title, industry, pain point, funnel stage\n- Phrase as: \"We are writing for…\"\n- UK English, factual, 3-5 lines\n\nOutput:\n1. Paragraph\n2. Self-check: personas clear – funnel stage – brand fit – relevant to keywords"

/-- The prompt built by BriefGenerator._generate_cta. -/
def cta_prompt (client_data : Client) (topic primary_kw : String) (_secondary_kws : List String) : String :=
  "Suggest Primary and Secondary CTAs and logical next step:\n\nSite: " ++ client_data.site ++ "\nTopic: " ++ topic ++ "\nPrimary keyword: " ++ primary_kw ++ "\n\nRules:\n- Match content type (blogs → soft CTAs; landing → direct)\n- Provide destination URL suggestion\n- Example CTAs: \"Book a Consultation\", \"Download the Guide\", \"Enquire Now\"\n- Include placement suggestion (end, sidebar, mid-section)\n\nOutput:\n1. Primary CTA text\n2. Secondary CTA text (optional)\n3. Suggested URL\n4. Placement note\n5. Self-check: CTA fits intent – path logical – language compliant"

/-- The prompt built by BriefGenerator._generate_headings_faq. -/
def headings_faq_prompt (client_data : Client) (topic primary_kw : String) (secondary_kws : List String) : String :=
  "Build complete outline for the writer:\n\nTopic: " ++ topic ++ "\nPrimary keyword: " ++ primary_kw ++ "\nSecondary keywords: " ++ py_join ", " secondary_kws ++ "\nMandatory mentions: " ++ py_join ", " ((py_iter (pyGetD "mandatory_mentions" client_data.requirements (PyVal.pyList []))).map py_to_str) ++ "\n\nRules:\n- Use logical H2-H3 hierarchy (4-6 main H2s, each with 1-2 H3s if needed)\n- Under each heading, add 1-2 bullets describing what must be covered\n- Flow: Intro → Background → Main Points → Benefits → Steps → Conclusion\n- Naturally integrate keywords where relevant\n- Maintain readability and topical breadth for AI Search (cover what/why/how)\n- At end, add FAQ section with 5-8 questions as real user queries\n\nOutput format:\nH1: [Heading]\n\nH2: [Heading 1]\n- Key point 1\n- Key point 2\n  H3: [Subheading 1.1]\n  - Key point a\n\nH2: [Heading 2]\n- ...\n\nFAQ\n1. [Question 1]\n2. [Question 2]\n...\n\nThen self-check: H1 matches – flow logical – points actionable – keywords natural – FAQ relevant"

/-- BriefGenerator._format_restrictions: pure local formatting of the four
restriction lists of the profile; no adapter call (the function does not
receive the oracle at all). -/
def format_restrictions (client_data : Client) : String :=
  let restrictions := client_data.restrictions
  let output := "Legal restrictions:\n"
  let output := (py_iter (pyGetD "legal" restrictions (PyVal.pyList []))).foldl
    (fun acc item => acc ++ "- " ++ py_to_str item ++ "\n") output
  let output := output ++ "\nBrand restrictions:\n"
  let output := (py_iter (pyGetD "brand" restrictions (PyVal.pyList []))).foldl
    (fun acc item => acc ++ "- " ++ py_to_str item ++ "\n") output
  let output := output ++ "\nSEO restrictions:\n"
  let output := (py_iter (pyGetD "seo" restrictions (PyVal.pyList []))).foldl
    (fun acc item => acc ++ "- " ++ py_to_str item ++ "\n") output
  let output := output ++ "\nContent-integrity restrictions:\n"
  let output := (py_iter (pyGetD "content_integrity" restrictions (PyVal.pyList []))).foldl
    (fun acc item => acc ++ "- " ++ py_to_str item ++ "\n") output
  output

/-- The fixed closing line appended by BriefGenerator._format_requirements. -/
def requirements_self_check : String :=
  "\nSelf-check: all mandatory items – site fit – brand consistent – tone aligned"

/-- BriefGenerator._format_requirements: pure local formatting of the
requirements dictionary; each line is emitted only when the corresponding
value is truthy, and the fixed self-check line is always appended.  No
adapter call (the function does not receive the oracle at all). -/
def format_requirements (client_data : Client) : String :=
  let reqs := client_data.requirements
  let output := ""
  let output := if py_truthy (pyGetD "word_count" reqs PyVal.pyNone) then
    output ++ "- Word count: " ++ py_to_str (pyGetD "word_count" reqs PyVal.pyNone) ++ "\n" else output
  let output := if py_truthy (pyGetD "readability_score" reqs PyVal.pyNone) then
    output ++ "- Readability: " ++ py_to_str (pyGetD "readability_score" reqs PyVal.pyNone) ++ "\n" else output
  let output := if py_truthy (pyGetD "tone" reqs PyVal.pyNone) then
    output ++ "- Tone: " ++ py_to_str (pyGetD "tone" reqs PyVal.pyNone) ++ "\n" else output
  let output := if py_truthy (pyGetD "mandatory_mentions" reqs PyVal.pyNone) then
    output ++ "- Mandatory mentions: " ++ py_join ", " ((py_iter (pyGetD "mandatory_mentions" reqs PyVal.pyNone)).map py_to_str) ++ "\n" else output
  let output := if py_truthy (pyGetD "schema_required" reqs PyVal.pyNone) then
    output ++ "- Schema markup required\n" else output
  let output := if py_truthy (pyGetD "images_required" reqs PyVal.pyNone) then
    output ++ "- Minimum images: " ++ py_to_str (pyGetD "images_required" reqs PyVal.pyNone) ++ "\n" else output
  let output := if py_truthy (pyGetD "cta_required" reqs PyVal.pyNone) then
    output ++ "- CTA required\n" else output
  let output := if py_truthy (pyGetD "internal_links_min" reqs PyVal.pyNone) then
    output ++ "- Minimum internal links: " ++ py_to_str (pyGetD "internal_links_min" reqs PyVal.pyNone) ++ "\n" else output
  output ++ requirements_self_check

/-- BriefGenerator.generate_brief: issue the remote section calls one after
another in the fixed source order, aborting on the first adapter error; the
two local sections (restrictions, requirements) come from pure formatting of
the profile; metadata is echoed at the end.  The result carries the ordered
record (insertion order of the Python dictionary) together with the list of
adapter calls actually issued. -/
def generate_brief (oracle : AIOracle) (client_data : Client)
    (topic primary_kw : String) (secondary_kws : List String) :
    Except String (List (String × String)) × List AICall :=
  let si := system_instruction
  let p1 := page_type_prompt client_data topic primary_kw secondary_kws
  let c1 : AICall := ⟨si, p1, 7⟩
  match call_ai oracle si p1 with
  | Except.error e => (Except.error e, [c1])
  | Except.ok page_type =>
  let p2 := page_title_prompt client_data topic primary_kw secondary_kws
  let c2 : AICall := ⟨si, p2, 7⟩
  match call_ai oracle si p2 with
  | Except.error e => (Except.error e, [c1, c2])
  | Except.ok page_title =>
  let p3 := meta_description_prompt client_data topic primary_kw secondary_kws
  let c3 : AICall := ⟨si, p3, 7⟩
  match call_ai oracle si p3 with
  | Except.error e => (Except.error e, [c1, c2, c3])
  | Except.ok meta_description =>
  let p4 := target_url_prompt client_data topic primary_kw secondary_kws
  let c4 : AICall := ⟨si, p4, 7⟩
  match call_ai oracle si p4 with
  | Except.error e => (Except.error e, [c1, c2, c3, c4])
  | Except.ok target_url =>
  let p5 := h1_prompt client_data topic primary_kw secondary_kws
  let c5 : AICall := ⟨si, p5, 7⟩
  match call_ai oracle si p5 with
  | Except.error e => (Except.error e, [c1, c2, c3, c4, c5])
  | Except.ok h1_text =>
  let p6 := summary_bullets_prompt client_data topic primary_kw secondary_kws
  let c6 : AICall := ⟨si, p6, 7⟩
  match call_ai oracle si p6 with
  | Except.error e => (Except.error e, [c1, c2, c3, c4, c5, c6])
  | Except.ok summary_bullets =>
  let p7 := internal_links_prompt client_data topic primary_kw secondary_kws
  let c7 : AICall := ⟨si, p7, 7⟩
  match call_ai oracle si p7 with
  | Except.error e => (Except.error e, [c1, c2, c3, c4, c5, c6, c7])
  | Except.ok internal_links =>
  let p8 := audience_prompt client_data topic primary_kw secondary_kws
  let c8 : AICall := ⟨si, p8, 7⟩
  match call_ai oracle si p8 with
  | Except.error e => (Except.error e, [c1, c2, c3, c4, c5, c6, c7, c8])
  | Except.ok audience =>
  let p9 := cta_prompt client_data topic primary_kw secondary_kws
  let c9 : AICall := ⟨si, p9, 7⟩
  match call_ai oracle si p9 with
  | Except.error e => (Except.error e, [c1, c2, c3, c4, c5, c6, c7, c8, c9])
  | Except.ok cta =>
  let restrictions_text := format_restrictions client_data
  let requirements_text := format_requirements client_data
  let p10 := headings_faq_prompt client_data topic primary_kw secondary_kws
  let c10 : AICall := ⟨si, p10, 7⟩
  match call_ai oracle si p10 with
  | Except.error e => (Except.error e, [c1, c2, c3, c4, c5, c6, c7, c8, c9, c10])
  | Except.ok headings_faq =>
    (Except.ok
      [("page_type", page_type),
       ("page_title", page_title),
       ("meta_description", meta_description),
       ("target_url", target_url),
       ("h1", h1_text),
       ("summary_bullets", summary_bullets),
       ("internal_links", internal_links),
       ("audience", audience),
       ("cta", cta),
       ("restrictions", restrictions_text),
       ("requirements", requirements_text),
       ("headings_faq", headings_faq),
       ("client_name", client_data.client_name),
       ("topic", topic),
       ("site", client_data.site),
       ("primary_kw", primary_kw),
       ("secondary_kws", py_join ", " secondary_kws)],
     [c1, c2, c3, c4, c5, c6, c7, c8, c9, c10])

/-- The full fixed sequence of adapter calls generate_brief issues when no
call fails: ten calls, one per remote section, in source order. -/
def expected_calls (client_data : Client) (topic primary_kw : String)
    (secondary_kws : List String) : List AICall :=
  [⟨system_instruction, page_type_prompt client_data topic primary_kw secondary_kws, 7⟩,
   ⟨system_instruction, page_title_prompt client_data topic primary_kw secondary_kws, 7⟩,
   ⟨system_instruction, meta_description_prompt client_data topic primary_kw secondary_kws, 7⟩,
   ⟨system_instruction, target_url_prompt client_data topic primary_kw secondary_kws, 7⟩,
   ⟨system_instruction, h1_prompt client_data topic primary_kw secondary_kws, 7⟩,
   ⟨system_instruction, summary_bullets_prompt client_data topic primary_kw secondary_kws, 7⟩,
   ⟨system_instruction, internal_links_prompt client_data topic primary_kw secondary_kws, 7⟩,
   ⟨system_instruction, audience_prompt client_data topic primary_kw secondary_kws, 7⟩,
   ⟨system_instruction, cta_prompt client_data topic primary_kw secondary_kws, 7⟩,
   ⟨system_instruction, headings_faq_prompt client_data topic primary_kw secondary_kws, 7⟩]

/-- The fixed key set of a complete BriefRecord, in insertion order: the
twelve section keys followed by the five echoed metadata keys. -/
def brief_keys : List String :=
  ["page_type", "page_title", "meta_description", "target_url", "h1",
   "summary_bullets", "internal_links", "audience", "cta", "restrictions",
   "requirements", "headings_faq", "client_name", "topic", "site",
   "primary_kw", "secondary_kws"]

/-- ClientManager._get_client_file: the storage key is the client name with
spaces replaced by underscores, then lower-cased (the .json suffix and the
directory are constant and elided). -/
def safe_name (client_name : String) : String :=
  String.mk ((client_name.data.map (fun ch => if ch = ' ' then '_' else ch)).map Char.toLower)

/-- The file-backed profile store: one JSON record per storage key. -/
abbrev Store := List (String × PyDict)

/-- The default profile structure filled in by ClientManager.create_client. -/
def default_structure (client_name : String) : PyDict :=
  [("client_name", PyVal.pyStr client_name),
   ("site", PyVal.pyStr ""),
   ("information", PyVal.pyList []),
   ("restrictions", PyVal.pyDict
     [("legal", PyVal.pyList []),
      ("brand", PyVal.pyList []),
      ("seo", PyVal.pyList []),
      ("content_integrity", PyVal.pyList [])]),
   ("requirements", PyVal.pyDict
     [("word_count", PyVal.pyStr ""),
      ("readability_score", PyVal.pyStr ""),
      ("tone", PyVal.pyStr ""),
      ("mandatory_mentions", PyVal.pyList []),
      ("schema_required", PyVal.pyBool false),
      ("images_required", PyVal.pyInt 0),
      ("cta_required", PyVal.pyBool true),
      ("internal_links_min", PyVal.pyInt 6)])]

/-- ClientManager.create_client: refuse (returning False, store untouched)
when the storage key already exists, otherwise write the provided data merged
over the defaults, with client_name forced. -/
def create_client (st : Store) (client_name : String) (client_data : PyDict) : Bool × Store :=
  let file := safe_name client_name
  if containsKey file st then (false, st)
  else
    let merged := dictUpdate (default_structure client_name) client_data
    let merged := setKey merged "client_name" (PyVal.pyStr client_name)
    (true, setKey st file merged)

/-- ClientManager.get_client: read the record stored at the storage key. -/
def get_client (st : Store) (client_name : String) : Option PyDict :=
  plookup (safe_name client_name) st

/-- The merge loop of ClientManager.update_client: for each binding of the
updates dictionary, a mapping value is merged one level deep into an existing
mapping value (client_data[key].update(value)); calling .update on an
existing non-mapping value raises AttributeError; every other binding plainly
overwrites. -/
def mergeUpdates (data : PyDict) : List (String × PyVal) → Except String PyDict
  | [] => Except.ok data
  | (k, v) :: rest =>
    match v with
    | PyVal.pyDict u =>
      if containsKey k data then
        match plookup k data with
        | some (PyVal.pyDict dv) => mergeUpdates (setKey data k (PyVal.pyDict (dictUpdate dv u))) rest
        | _ => Except.error "AttributeError"
      else mergeUpdates (setKey data k v) rest
    | _ => mergeUpdates (setKey data k v) rest

/-- ClientManager.update_client: load the record, apply the merge loop and
write the result back under the same storage key; returns False when the
client does not exist. -/
def update_client (st : Store) (client_name : String) (updates : List (String × PyVal)) :
    Except String (Bool × Store) :=
  match get_client st client_name with
  | none => Except.ok (false, st)
  | some data =>
    match mergeUpdates data updates with
    | Except.error e => Except.error e
    | Except.ok newData => Except.ok (true, setKey st (safe_name client_name) newData)

/-- ClientManager.delete_client: remove the record at the storage key;
returns False when absent. -/
def delete_client (st : Store) (client_name : String) : Bool × Store :=
  let file := safe_name client_name
  if containsKey file st then (true, eraseKey file st)
  else (false, st)

lemma dictUpdate_nil (d : List (String × α)) : dictUpdate d [] = d := rfl

lemma dictUpdate_cons (d : List (String × α)) (k0 : String) (v0 : α) (u : List (String × α)) :
    dictUpdate d ((k0, v0) :: u) = dictUpdate (setKey d k0 v0) u := rfl

lemma containsKey_eq_isSome (k : String) (d : List (String × α)) :
    containsKey k d = (plookup k d).isSome := by
  induction d with
  | nil => rfl
  | cons hd tl ih =>
    obtain ⟨k0, w⟩ := hd
    by_cases h : k = k0
    · simp [containsKey, plookup, h]
    · simp [containsKey, plookup, h, ih]

lemma containsKey_iff_mem (k : String) (d : List (String × α)) :
    containsKey k d = true ↔ k ∈ d.map Prod.fst := by
  induction d with
  | nil => simp [containsKey]
  | cons hd tl ih =>
    obtain ⟨k0, w⟩ := hd
    by_cases h : k = k0
    · simp [containsKey, h]
    · simp [containsKey, h, ih]

lemma plookup_append (k : String) (d e : List (String × α)) :
    plookup k (d ++ e) =
      match plookup k d with
      | some v => some v
      | none => plookup k e := by
  induction d with
  | nil => simp [plookup]
  | cons hd tl ih =>
    obtain ⟨k0, w⟩ := hd
    by_cases h : k = k0
    · simp [plookup, h]
    · simp [plookup, h, ih]

lemma plookup_map_set_ne {k' k : String} (h : k' ≠ k) (v : α) (d : List (String × α)) :
    plookup k' (d.map (fun p => if p.1 = k then (k, v) else p)) = plookup k' d := by
  induction d with
  | nil => rfl
  | cons hd tl ih =>
    obtain ⟨k0, w⟩ := hd
    simp only [List.map_cons]
    by_cases h0 : k0 = k
    · subst h0
      rw [if_pos rfl]
      simp [plookup, h, ih]
    · rw [if_neg h0]
      simp [plookup, ih]

lemma plookup_map_set_self (k : String) (v : α) (d : List (String × α)) :
    plookup k (d.map (fun p => if p.1 = k then (k, v) else p)) =
      if containsKey k d then some v else none := by
  induction d with
  | nil => simp [plookup, containsKey]
  | cons hd tl ih =>
    obtain ⟨k0, w⟩ := hd
    simp only [List.map_cons]
    by_cases h : k0 = k
    · subst h
      rw [if_pos rfl]
      simp [plookup, containsKey, ih]
    · rw [if_neg h]
      have h' : ¬ (k = k0) := fun hh => h hh.symm
      simp [plookup, containsKey, h', ih]

lemma plookup_setKey_self (d : List (String × α)) (k : String) (v : α) :
    plookup k (setKey d k v) = some v := by
  unfold setKey
  by_cases h : containsKey k d
  · simp [h, plookup_map_set_self]
  · rw [if_neg h, plookup_append]
    have hnone : plookup k d = none := by
      rw [containsKey_eq_isSome] at h
      exact Option.not_isSome_iff_eq_none.mp h
    simp [hnone, plookup]

lemma plookup_setKey_ne {k' k : String} (h : k' ≠ k) (d : List (String × α)) (v : α) :
    plookup k' (setKey d k v) = plookup k' d := by
  unfold setKey
  by_cases hc : containsKey k d
  · simp [hc, plookup_map_set_ne h]
  · rw [if_neg hc, plookup_append]
    cases hp : plookup k' d with
    | some w => simp
    | none => simp [plookup, h]

lemma containsKey_setKey_self (d : List (String × α)) (k : String) (v : α) :
    containsKey k (setKey d k v) = true := by
  rw [containsKey_eq_isSome, plookup_setKey_self]; rfl

lemma plookup_dictUpdate_not_mem {k : String} {u : List (String × α)}
    (h : containsKey k u = false) (d : List (String × α)) :
    plookup k (dictUpdate d u) = plookup k d := by
  induction u generalizing d with
  | nil => rfl
  | cons hd u' ih =>
    obtain ⟨k0, v0⟩ := hd
    simp only [containsKey, Bool.or_eq_false_iff, decide_eq_false_iff_not] at h
    rw [dictUpdate_cons, ih h.2, plookup_setKey_ne h.1]

lemma plookup_dictUpdate_mem {k : String} {u : List (String × α)}
    (hu : NodupKeys u) (h : containsKey k u = true) (d : List (String × α)) :
    plookup k (dictUpdate d u) = plookup k u := by
  induction u generalizing d with
  | nil => simp [containsKey] at h
  | cons hd u' ih =>
    obtain ⟨k0, v0⟩ := hd
    rw [dictUpdate_cons]
    by_cases hk : k = k0
    · subst hk
      have hmem : k ∉ u'.map Prod.fst := by
        have := hu
        simp only [NodupKeys, List.map_cons, List.nodup_cons] at this
        exact this.1
      have hnot : containsKey k u' = false := by
        rw [← Bool.not_eq_true]
        intro hc
        exact hmem ((containsKey_iff_mem k u').mp hc)
      rw [plookup_dictUpdate_not_mem hnot, plookup_setKey_self]
      simp [plookup]
    · have h' : containsKey k u' = true := by
        simp only [containsKey, Bool.or_eq_true, decide_eq_true_eq] at h
        rcases h with h | h
        · exact absurd h hk
        · exact h
      have hu' : NodupKeys u' := by
        have := hu
        simp only [NodupKeys, List.map_cons, List.nodup_cons] at this
        exact this.2
      rw [ih hu' h']
      simp [plookup, hk]

lemma plookup_erase_self (k : String) (d : List (String × α)) :
    plookup k (eraseKey k d) = none := by
  induction d with
  | nil => rfl
  | cons hd tl ih =>
    obtain ⟨k0, w⟩ := hd
    by_cases h : k0 = k
    · simp [eraseKey, List.filter_cons, h, ih]
      simpa [eraseKey] using ih
    · have h' : ¬ (k = k0) := fun hh => h hh.symm
      simp [eraseKey, List.filter_cons, h, plookup, h']
      simpa [eraseKey] using ih

lemma plookup_erase_ne {k' k : String} (h : k' ≠ k) (d : List (String × α)) :
    plookup k' (eraseKey k d) = plookup k' d := by
  induction d with
  | nil => rfl
  | cons hd tl ih =>
    obtain ⟨k0, w⟩ := hd
    by_cases h0 : k0 = k
    · subst h0
      simp [eraseKey, List.filter_cons, plookup, h]
      simpa [eraseKey] using ih
    · by_cases hk : k' = k0
      · simp [eraseKey, List.filter_cons, h0, plookup, hk]
      · simp [eraseKey, List.filter_cons, h0, plookup, hk]
        simpa [eraseKey] using ih

lemma pyGetD_erase_self (k : String) (d : PyDict) (dflt : PyVal) :
    pyGetD k (eraseKey k d) dflt = dflt := by
  rw [pyGetD, plookup_erase_self]; rfl

lemma pyGetD_erase_ne {k' k : String} (h : k' ≠ k) (d : PyDict) (dflt : PyVal) :
    pyGetD k' (eraseKey k d) dflt = pyGetD k' d dflt := by
  rw [pyGetD, plookup_erase_ne h]; rfl

lemma generate_brief_ok_eq (oracle : AIOracle) (client_data : Client)
    (topic primary_kw : String) (secondary_kws : List String)
    (rec : List (String × String)) (tr : List AICall)
    (h : generate_brief oracle client_data topic primary_kw secondary_kws = (Except.ok rec, tr)) :
    tr = expected_calls client_data topic primary_kw secondary_kws ∧
    ∃ r1 r2 r3 r4 r5 r6 r7 r8 r9 r10,
      rec = [("page_type", r1), ("page_title", r2), ("meta_description", r3),
             ("target_url", r4), ("h1", r5), ("summary_bullets", r6),
             ("internal_links", r7), ("audience", r8), ("cta", r9),
             ("restrictions", format_restrictions client_data),
             ("requirements", format_requirements client_data),
             ("headings_faq", r10),
             ("client_name", client_data.client_name), ("topic", topic),
             ("site", client_data.site), ("primary_kw", primary_kw),
             ("secondary_kws", py_join ", " secondary_kws)] := by
  simp only [generate_brief] at h
  split at h
  · simp at h
  split at h
  · simp at h
  split at h
  · simp at h
  split at h
  · simp at h
  split at h
  · simp at h
  split at h
  · simp at h
  split at h
  · simp at h
  split at h
  · simp at h
  split at h
  · simp at h
  split at h
  · simp at h
  simp only [Prod.mk.injEq, Except.ok.injEq] at h
  obtain ⟨hrec, htr⟩ := h
  subst hrec
  subst htr
  refine ⟨rfl, ?_⟩
  exact ⟨_, _, _, _, _, _, _, _, _, _, rfl⟩

lemma generate_brief_error_eq (oracle : AIOracle) (client_data : Client)
    (topic primary_kw : String) (secondary_kws : List String)
    (e : String) (tr : List AICall)
    (h : generate_brief oracle client_data topic primary_kw secondary_kws = (Except.error e, tr)) :
    ∃ k c, 0 < k ∧ k ≤ 10 ∧
      tr = (expected_calls client_data topic primary_kw secondary_kws).take k ∧
      tr.getLast? = some c ∧ oracle c = Except.error e := by
  simp only [generate_brief] at h
  split at h
  · rename_i e0 heq
    simp only [Prod.mk.injEq, Except.error.injEq] at h
    obtain ⟨he, htr⟩ := h
    subst he
    subst htr
    exact ⟨1, _, by decide, by decide, by simp [expected_calls], rfl, heq⟩
  split at h
  · rename_i e0 heq
    simp only [Prod.mk.injEq, Except.error.injEq] at h
    obtain ⟨he, htr⟩ := h
    subst he
    subst htr
    exact ⟨2, _, by decide, by decide, by simp [expected_calls], rfl, heq⟩
  split at h
  · rename_i e0 heq
    simp only [Prod.mk.injEq, Except.error.injEq] at h
    obtain ⟨he, htr⟩ := h
    subst he
    subst htr
    exact ⟨3, _, by decide, by decide, by simp [expected_calls], rfl, heq⟩
  split at h
  · rename_i e0 heq
    simp only [Prod.mk.injEq, Except.error.injEq] at h
    obtain ⟨he, htr⟩ := h
    subst he
    subst htr
    exact ⟨4, _, by decide, by decide, by simp [expected_calls], rfl, heq⟩
  split at h
  · rename_i e0 heq
    simp only [Prod.mk.injEq, Except.error.injEq] at h
    obtain ⟨he, htr⟩ := h
    subst he
    subst htr
    exact ⟨5, _, by decide, by decide, by simp [expected_calls], rfl, heq⟩
  split at h
  · rename_i e0 heq
    simp only [Prod.mk.injEq, Except.error.injEq] at h
    obtain ⟨he, htr⟩ := h
    subst he
    subst htr
    exact ⟨6, _, by decide, by decide, by simp [expected_calls], rfl, heq⟩
  split at h
  · rename_i e0 heq
    simp only [Prod.mk.injEq, Except.error.injEq] at h
    obtain ⟨he, htr⟩ := h
    subst he
    subst htr
    exact ⟨7, _, by decide, by decide, by simp [expected_calls], rfl, heq⟩
  split at h
  · rename_i e0 heq
    simp only [Prod.mk.injEq, Except.error.injEq] at h
    obtain ⟨he, htr⟩ := h
    subst he
    subst htr
    exact ⟨8, _, by decide, by decide, by simp [expected_calls], rfl, heq⟩
  split at h
  · rename_i e0 heq
    simp only [Prod.mk.injEq, Except.error.injEq] at h
    obtain ⟨he, htr⟩ := h
    subst he
    subst htr
    exact ⟨9, _, by decide, by decide, by simp [expected_calls], rfl, heq⟩
  split at h
  · rename_i e0 heq
    simp only [Prod.mk.injEq, Except.error.injEq] at h
    obtain ⟨he, htr⟩ := h
    subst he
    subst htr
    exact ⟨10, _, by decide, by decide, by simp [expected_calls], rfl, heq⟩
  simp at h

/-- An adapter oracle whose every call succeeds with the text ok. -/
def oracle_ok : AIOracle := fun _ => Except.ok "ok"

/-- An adapter oracle whose every call fails (network or auth failure). -/
def oracle_fail : AIOracle := fun _ => Except.error "boom"

/-- An adapter oracle that echoes the user prompt of the call. -/
def oracle_echo : AIOracle := fun c => Except.ok c.prompt

/-- A concrete client profile used to exercise the theorems; its
requirements hold the five falsy values of interest (empty word count,
zero image and link minima, both flags off). -/
def client_ex : Client :=
  ⟨"Acme", "acme.com",
   [("legal", PyVal.pyList [PyVal.pyStr "L1"]),
    ("brand", PyVal.pyList []),
    ("seo", PyVal.pyList [PyVal.pyStr "S1"]),
    ("content_integrity", PyVal.pyList [])],
   [("word_count", PyVal.pyStr ""),
    ("readability_score", PyVal.pyStr ""),
    ("tone", PyVal.pyStr "warm"),
    ("mandatory_mentions", PyVal.pyList []),
    ("schema_required", PyVal.pyBool false),
    ("images_required", PyVal.pyInt 0),
    ("cta_required", PyVal.pyBool false),
    ("internal_links_min", PyVal.pyInt 0)]⟩

/-- The record produced by generate_brief on client_ex under oracle_ok. -/
def rec_ex : List (String × String) :=
  [("page_type", "ok"), ("page_title", "ok"), ("meta_description", "ok"),
   ("target_url", "ok"), ("h1", "ok"), ("summary_bullets", "ok"),
   ("internal_links", "ok"), ("audience", "ok"), ("cta", "ok"),
   ("restrictions", format_restrictions client_ex),
   ("requirements", format_requirements client_ex),
   ("headings_faq", "ok"),
   ("client_name", "Acme"), ("topic", "Widgets"), ("site", "acme.com"),
   ("primary_kw", "widget"), ("secondary_kws", py_join ", " ["gadget", "tool"])]

/-- The record produced by generate_brief on client_ex under oracle_echo. -/
def rec_echo_ex : List (String × String) :=
  [("page_type", page_type_prompt client_ex "Widgets" "widget" ["gadget", "tool"]),
   ("page_title", page_title_prompt client_ex "Widgets" "widget" ["gadget", "tool"]),
   ("meta_description", meta_description_prompt client_ex "Widgets" "widget" ["gadget", "tool"]),
   ("target_url", target_url_prompt client_ex "Widgets" "widget" ["gadget", "tool"]),
   ("h1", h1_prompt client_ex "Widgets" "widget" ["gadget", "tool"]),
   ("summary_bullets", summary_bullets_prompt client_ex "Widgets" "widget" ["gadget", "tool"]),
   ("internal_links", internal_links_prompt client_ex "Widgets" "widget" ["gadget", "tool"]),
   ("audience", audience_prompt client_ex "Widgets" "widget" ["gadget", "tool"]),
   ("cta", cta_prompt client_ex "Widgets" "widget" ["gadget", "tool"]),
   ("restrictions", format_restrictions client_ex),
   ("requirements", format_requirements client_ex),
   ("headings_faq", headings_faq_prompt client_ex "Widgets" "widget" ["gadget", "tool"]),
   ("client_name", "Acme"), ("topic", "Widgets"), ("site", "acme.com"),
   ("primary_kw", "widget"), ("secondary_kws", py_join ", " ["gadget", "tool"])]

lemma generate_brief_oracle_ok_eval :
    generate_brief oracle_ok client_ex "Widgets" "widget" ["gadget", "tool"] =
      (Except.ok rec_ex, expected_calls client_ex "Widgets" "widget" ["gadget", "tool"]) := rfl

lemma generate_brief_oracle_fail_eval :
    generate_brief oracle_fail client_ex "Widgets" "widget" ["gadget", "tool"] =
      (Except.error "boom",
       (expected_calls client_ex "Widgets" "widget" ["gadget", "tool"]).take 1) := rfl

lemma generate_brief_oracle_echo_eval :
    generate_brief oracle_echo client_ex "Widgets" "widget" ["gadget", "tool"] =
      (Except.ok rec_echo_ex, expected_calls client_ex "Widgets" "widget" ["gadget", "tool"]) := rfl

/-- A configuration holding exactly one credential (openai). -/
def config_ex : ConfigEnv :=
  ⟨fun k => if k = "OPENAI_API_KEY" then some "sk-test" else none, false, fun _ => none⟩

/-- C1: for every oracle, profile, topic and keyword list, generate_brief
either returns a record whose keys are exactly the fixed brief_keys (no key
missing, no extra key) or fails; when an adapter call fails, that error is
the overall result, the issued calls are exactly the prefix of the fixed
call sequence ending at the failing call (the remaining sections are not
generated), and no record is returned. -/
theorem c1_generate_all_or_nothing (oracle : AIOracle) (client_data : Client)
    (topic primary_kw : String) (secondary_kws : List String) :
    (∀ rec tr, generate_brief oracle client_data topic primary_kw secondary_kws = (Except.ok rec, tr) →
      rec.map Prod.fst = brief_keys) ∧
    (∀ e tr, generate_brief oracle client_data topic primary_kw secondary_kws = (Except.error e, tr) →
      ∃ k c, 0 < k ∧ k ≤ 10 ∧
        tr = (expected_calls client_data topic primary_kw secondary_kws).take k ∧
        tr.getLast? = some c ∧ oracle c = Except.error e) := by
  constructor
  · intro rec tr h
    obtain ⟨-, r1, r2, r3, r4, r5, r6, r7, r8, r9, r10, hrec⟩ :=
      generate_brief_ok_eq oracle client_data topic primary_kw secondary_kws rec tr h
    subst hrec
    rfl
  · intro e tr h
    exact generate_brief_error_eq oracle client_data topic primary_kw secondary_kws e tr h

/-- Witness for C1 at concrete input: under an all-ok oracle the record keys
are exactly brief_keys; under an all-failing oracle the run aborts after the
first call with that error. -/
theorem c1_generate_all_or_nothing_witness :
    (∃ rec tr, generate_brief oracle_ok client_ex "Widgets" "widget" ["gadget", "tool"] = (Except.ok rec, tr) ∧
      rec.map Prod.fst = brief_keys) ∧
    (∃ tr, generate_brief oracle_fail client_ex "Widgets" "widget" ["gadget", "tool"] = (Except.error "boom", tr) ∧
      ∃ k c, 0 < k ∧ k ≤ 10 ∧
        tr = (expected_calls client_ex "Widgets" "widget" ["gadget", "tool"]).take k ∧
        tr.getLast? = some c ∧ oracle_fail c = Except.error "boom") := by
  constructor
  · exact ⟨rec_ex, expected_calls client_ex "Widgets" "widget" ["gadget", "tool"],
      generate_brief_oracle_ok_eval,
      (c1_generate_all_or_nothing oracle_ok client_ex "Widgets" "widget" ["gadget", "tool"]).1
        rec_ex (expected_calls client_ex "Widgets" "widget" ["gadget", "tool"])
        generate_brief_oracle_ok_eval⟩
  · exact ⟨(expected_calls client_ex "Widgets" "widget" ["gadget", "tool"]).take 1,
      generate_brief_oracle_fail_eval,
      (c1_generate_all_or_nothing oracle_fail client_ex "Widgets" "widget" ["gadget", "tool"]).2
        "boom" ((expected_calls client_ex "Widgets" "widget" ["gadget", "tool"]).take 1)
        generate_brief_oracle_fail_eval⟩

/-- C2 counterexample: a fully successful generate_brief run issues ten
provider-adapter calls, not nine as claimed: the trace of the concrete run
has length ten. -/
theorem c2_nine_calls_counterexample :
    (generate_brief oracle_ok client_ex "Widgets" "widget" ["gadget", "tool"]).1 = Except.ok rec_ex ∧
    (generate_brief oracle_ok client_ex "Widgets" "widget" ["gadget", "tool"]).2.length = 10 ∧
    (generate_brief oracle_ok client_ex "Widgets" "widget" ["gadget", "tool"]).2.length ≠ 9 := by
  refine ⟨rfl, rfl, by decide⟩

/-- C2 (amended): every successful generate_brief run issues exactly ten
provider-adapter calls, one per remote section, sequentially in the fixed
source order (the trace equals the fixed call sequence), while the
restrictions and requirements sections are produced by purely local
formatting of the profile with no adapter call. -/
theorem c2_ten_calls_fixed_order (oracle : AIOracle) (client_data : Client)
    (topic primary_kw : String) (secondary_kws : List String) :
    ∀ rec tr, generate_brief oracle client_data topic primary_kw secondary_kws = (Except.ok rec, tr) →
      tr = expected_calls client_data topic primary_kw secondary_kws ∧
      tr.length = 10 ∧
      plookup "restrictions" rec = some (format_restrictions client_data) ∧
      plookup "requirements" rec = some (format_requirements client_data) := by
  intro rec tr h
  obtain ⟨htr, r1, r2, r3, r4, r5, r6, r7, r8, r9, r10, hrec⟩ :=
    generate_brief_ok_eq oracle client_data topic primary_kw secondary_kws rec tr h
  subst htr
  subst hrec
  exact ⟨rfl, rfl, rfl, rfl⟩

/-- Witness for the amended C2 at concrete input. -/
theorem c2_ten_calls_fixed_order_witness :
    expected_calls client_ex "Widgets" "widget" ["gadget", "tool"] =
      expected_calls client_ex "Widgets" "widget" ["gadget", "tool"] ∧
    (expected_calls client_ex "Widgets" "widget" ["gadget", "tool"]).length = 10 ∧
    plookup "restrictions" rec_ex = some (format_restrictions client_ex) ∧
    plookup "requirements" rec_ex = some (format_requirements client_ex) :=
  c2_ten_calls_fixed_order oracle_ok client_ex "Widgets" "widget" ["gadget", "tool"]
    rec_ex (expected_calls client_ex "Widgets" "widget" ["gadget", "tool"])
    generate_brief_oracle_ok_eval

/-- C6: the restrictions and requirements formatters are pure and
deterministic: equal profile inputs give identical text; and in any two
successful generate_brief runs on the same profile, under any two oracles,
the restrictions and requirements sections coincide and equal the local
formatting of the profile, so no remote call influences them. -/
theorem c6_formatting_pure_deterministic :
    (∀ c1 c2 : Client, c1 = c2 →
      format_restrictions c1 = format_restrictions c2 ∧
      format_requirements c1 = format_requirements c2) ∧
    (∀ (oracle1 oracle2 : AIOracle) (client_data : Client)
       (topic primary_kw : String) (secondary_kws : List String) rec1 tr1 rec2 tr2,
      generate_brief oracle1 client_data topic primary_kw secondary_kws = (Except.ok rec1, tr1) →
      generate_brief oracle2 client_data topic primary_kw secondary_kws = (Except.ok rec2, tr2) →
      plookup "restrictions" rec1 = some (format_restrictions client_data) ∧
      plookup "requirements" rec1 = some (format_requirements client_data) ∧
      plookup "restrictions" rec1 = plookup "restrictions" rec2 ∧
      plookup "requirements" rec1 = plookup "requirements" rec2) := by
  constructor
  · intro c1 c2 h
    subst h
    exact ⟨rfl, rfl⟩
  · intro o1 o2 cd t pkw sks rec1 tr1 rec2 tr2 h1 h2
    obtain ⟨-, r1, r2, r3, r4, r5, r6, r7, r8, r9, r10, hrec1⟩ :=
      generate_brief_ok_eq o1 cd t pkw sks rec1 tr1 h1
    obtain ⟨-, q1, q2, q3, q4, q5, q6, q7, q8, q9, q10, hrec2⟩ :=
      generate_brief_ok_eq o2 cd t pkw sks rec2 tr2 h2
    subst hrec1
    subst hrec2
    exact ⟨rfl, rfl, rfl, rfl⟩

/-- Witness for C6 at concrete input: two runs under different oracles
(constant and prompt-echoing) agree on both locally formatted sections. -/
theorem c6_formatting_pure_deterministic_witness :
    format_restrictions client_ex = format_restrictions client_ex ∧
    plookup "restrictions" rec_ex = some (format_restrictions client_ex) ∧
    plookup "requirements" rec_ex = some (format_requirements client_ex) ∧
    plookup "restrictions" rec_ex = plookup "restrictions" rec_echo_ex ∧
    plookup "requirements" rec_ex = plookup "requirements" rec_echo_ex := by
  obtain ⟨ha, hb, hc, hd⟩ :=
    (c6_formatting_pure_deterministic).2 oracle_ok oracle_echo client_ex
      "Widgets" "widget" ["gadget", "tool"] rec_ex
      (expected_calls client_ex "Widgets" "widget" ["gadget", "tool"]) rec_echo_ex
      (expected_calls client_ex "Widgets" "widget" ["gadget", "tool"])
      generate_brief_oracle_ok_eval generate_brief_oracle_echo_eval
  exact ⟨((c6_formatting_pure_deterministic).1 client_ex client_ex rfl).1, ha, hb, hc, hd⟩

/-- C8: every successful generate_brief run echoes its inputs: the topic
entry equals the topic argument, the secondary_kws entry is the secondary
keywords joined with comma-space, and the client_name and site entries equal
the corresponding profile fields. -/
theorem c8_generate_echoes_inputs (oracle : AIOracle) (client_data : Client)
    (topic primary_kw : String) (secondary_kws : List String) :
    ∀ rec tr, generate_brief oracle client_data topic primary_kw secondary_kws = (Except.ok rec, tr) →
      plookup "topic" rec = some topic ∧
      plookup "secondary_kws" rec = some (py_join ", " secondary_kws) ∧
      plookup "client_name" rec = some client_data.client_name ∧
      plookup "site" rec = some client_data.site := by
  intro rec tr h
  obtain ⟨-, r1, r2, r3, r4, r5, r6, r7, r8, r9, r10, hrec⟩ :=
    generate_brief_ok_eq oracle client_data topic primary_kw secondary_kws rec tr h
  subst hrec
  exact ⟨rfl, rfl, rfl, rfl⟩

/-- Witness for C8 at the concrete scenario of the specification: topic
Widgets, secondary keywords gadget and tool joined as a comma-space string. -/
theorem c8_generate_echoes_inputs_witness :
    plookup "topic" rec_ex = some "Widgets" ∧
    plookup "secondary_kws" rec_ex = some "gadget, tool" ∧
    plookup "client_name" rec_ex = some "Acme" ∧
    plookup "site" rec_ex = some "acme.com" := by
  obtain ⟨h1, h2, h3, h4⟩ :=
    c8_generate_echoes_inputs oracle_ok client_ex "Widgets" "widget" ["gadget", "tool"]
      rec_ex (expected_calls client_ex "Widgets" "widget" ["gadget", "tool"])
      generate_brief_oracle_ok_eval
  refine ⟨h1, ?_, h3, h4⟩
  rw [h2]
  rfl

/-- C3: updating an existing profile with a partial mapping that touches a
nested mapping field (restrictions) and a non-mapping field overwrites
exactly the named sub-keys of the nested field, leaves every sibling
sub-key unchanged, fully overwrites the non-mapping field, and leaves
every other top-level field unchanged. -/
theorem c3_update_nested_merge (st : Store) (name : String) (data r u : PyDict)
    (k0 : String) (v0 : PyVal)
    (hget : get_client st name = some data)
    (hr : plookup "restrictions" data = some (PyVal.pyDict r))
    (hu : NodupKeys u)
    (hv : v0.isDict = false)
    (hk : k0 ≠ "restrictions") :
    ∃ st' data',
      update_client st name [("restrictions", PyVal.pyDict u), (k0, v0)] = Except.ok (true, st') ∧
      get_client st' name = some data' ∧
      plookup "restrictions" data' = some (PyVal.pyDict (dictUpdate r u)) ∧
      (∀ k, containsKey k u = true → plookup k (dictUpdate r u) = plookup k u) ∧
      (∀ k, containsKey k u = false → plookup k (dictUpdate r u) = plookup k r) ∧
      plookup k0 data' = some v0 ∧
      (∀ k, k ≠ "restrictions" → k ≠ k0 → plookup k data' = plookup k data) := by
  have hcont : containsKey "restrictions" data = true := by
    rw [containsKey_eq_isSome, hr]
    rfl
  have hmerge : mergeUpdates data [("restrictions", PyVal.pyDict u), (k0, v0)] =
      Except.ok (setKey (setKey data "restrictions" (PyVal.pyDict (dictUpdate r u))) k0 v0) := by
    have step1 : mergeUpdates data [("restrictions", PyVal.pyDict u), (k0, v0)] =
        mergeUpdates (setKey data "restrictions" (PyVal.pyDict (dictUpdate r u))) [(k0, v0)] := by
      simp only [mergeUpdates, hcont, if_true, hr]
    rw [step1]
    cases v0 with
    | pyStr s => simp [mergeUpdates]
    | pyBool b => simp [mergeUpdates]
    | pyInt n => simp [mergeUpdates]
    | pyList xs => simp [mergeUpdates]
    | pyDict w => simp [PyVal.isDict] at hv
    | pyNone => simp [mergeUpdates]
  refine ⟨setKey st (safe_name name)
            (setKey (setKey data "restrictions" (PyVal.pyDict (dictUpdate r u))) k0 v0),
          setKey (setKey data "restrictions" (PyVal.pyDict (dictUpdate r u))) k0 v0,
          ?_, ?_, ?_, ?_, ?_, ?_, ?_⟩
  · simp only [update_client, hget, hmerge]
  · simp only [get_client]
    exact plookup_setKey_self st (safe_name name) _
  · rw [plookup_setKey_ne (fun hh => hk hh.symm), plookup_setKey_self]
  · intro k hkin
    exact plookup_dictUpdate_mem hu hkin r
  · intro k hkout
    exact plookup_dictUpdate_not_mem hkout r
  · exact plookup_setKey_self _ k0 v0
  · intro k hkr hk0
    rw [plookup_setKey_ne hk0, plookup_setKey_ne hkr]

/-- A concrete store holding one profile named acme, used as witness input. -/
def store_ex : Store :=
  [("acme",
    [("client_name", PyVal.pyStr "acme"),
     ("site", PyVal.pyStr "acme.com"),
     ("restrictions", PyVal.pyDict
       [("legal", PyVal.pyList [PyVal.pyStr "L1"]),
        ("brand", PyVal.pyList []),
        ("seo", PyVal.pyList [PyVal.pyStr "S1"]),
        ("content_integrity", PyVal.pyList [])])])]

/-- The profile data stored under acme in store_ex. -/
def data_ex : PyDict :=
  [("client_name", PyVal.pyStr "acme"),
   ("site", PyVal.pyStr "acme.com"),
   ("restrictions", PyVal.pyDict
     [("legal", PyVal.pyList [PyVal.pyStr "L1"]),
      ("brand", PyVal.pyList []),
      ("seo", PyVal.pyList [PyVal.pyStr "S1"]),
      ("content_integrity", PyVal.pyList [])])]

/-- The restrictions dictionary of data_ex. -/
def restr_ex : PyDict :=
  [("legal", PyVal.pyList [PyVal.pyStr "L1"]),
   ("brand", PyVal.pyList []),
   ("seo", PyVal.pyList [PyVal.pyStr "S1"]),
   ("content_integrity", PyVal.pyList [])]

/-- Witness for C3 at concrete input: update acme with a partial brand
restriction and a new site; every hypothesis is discharged on the concrete
store. -/
theorem c3_update_nested_merge_witness :
    ∃ st' data',
      update_client store_ex "acme"
        [("restrictions", PyVal.pyDict [("brand", PyVal.pyList [PyVal.pyStr "x"])]),
         ("site", PyVal.pyStr "new.example")] = Except.ok (true, st') ∧
      get_client st' "acme" = some data' ∧
      plookup "restrictions" data' =
        some (PyVal.pyDict (dictUpdate restr_ex [("brand", PyVal.pyList [PyVal.pyStr "x"])])) ∧
      (∀ k, containsKey k [("brand", PyVal.pyList [PyVal.pyStr "x"])] = true →
        plookup k (dictUpdate restr_ex [("brand", PyVal.pyList [PyVal.pyStr "x"])]) =
          plookup k [("brand", PyVal.pyList [PyVal.pyStr "x"])]) ∧
      (∀ k, containsKey k [("brand", PyVal.pyList [PyVal.pyStr "x"])] = false →
        plookup k (dictUpdate restr_ex [("brand", PyVal.pyList [PyVal.pyStr "x"])]) =
          plookup k restr_ex) ∧
      plookup "site" data' = some (PyVal.pyStr "new.example") ∧
      (∀ k, k ≠ "restrictions" → k ≠ "site" → plookup k data' = plookup k data_ex) :=
  c3_update_nested_merge store_ex "acme" data_ex restr_ex
    [("brand", PyVal.pyList [PyVal.pyStr "x"])] "site" (PyVal.pyStr "new.example")
    rfl rfl (by simp [NodupKeys]) rfl (by decide)

/-- C4: when a profile with the given name already exists in the file-backed
store, a second create with that name returns False and leaves the whole
store (hence the existing profile data) unchanged. -/
theorem c4_create_existing_rejected (st : Store) (client_name : String) (d0 cdata : PyDict)
    (h : get_client st client_name = some d0) :
    create_client st client_name cdata = (false, st) := by
  have hcont : containsKey (safe_name client_name) st = true := by
    simp only [get_client] at h
    rw [containsKey_eq_isSome, h]
    rfl
  simp [create_client, hcont]

/-- Witness for C4 at concrete input: create acme over store_ex, which
already holds acme. -/
theorem c4_create_existing_rejected_witness :
    create_client store_ex "acme" [] = (false, store_ex) :=
  c4_create_existing_rejected store_ex "acme" data_ex [] rfl

/-- C9: two client names equal after space-underscoring and lower-casing
address the same stored profile in the file-backed store: after a create
succeeds under the first name, a create under the second name is rejected
with the store unchanged, and get under either name returns the same data. -/
theorem c9_safe_name_aliasing (st : Store) (n1 n2 : String) (d1 d2 : PyDict) (st' : Store)
    (hsafe : safe_name n1 = safe_name n2)
    (hcreate : create_client st n1 d1 = (true, st')) :
    create_client st' n2 d2 = (false, st') ∧
    get_client st' n2 = get_client st' n1 := by
  by_cases hc : containsKey (safe_name n1) st = true
  · simp [create_client, hc] at hcreate
  · have hc' : containsKey (safe_name n1) st = false := by
      rw [← Bool.not_eq_true]
      exact hc
    simp only [create_client, hc', Bool.false_eq_true, if_false] at hcreate
    obtain ⟨-, hst⟩ := Prod.mk.injEq .. ▸ hcreate
    constructor
    · have hcont2 : containsKey (safe_name n2) st' = true := by
        rw [← hsafe, ← hst]
        exact containsKey_setKey_self st (safe_name n1) _
      simp [create_client, hcont2]
    · simp only [get_client]
      rw [← hsafe]

/-- Witness for C9 at concrete input: Acme Co and acme CO normalize to the
same storage key acme_co. -/
theorem c9_safe_name_aliasing_witness :
    create_client (create_client ([] : Store) "Acme Co" []).2 "acme CO" [] =
      (false, (create_client ([] : Store) "Acme Co" []).2) ∧
    get_client (create_client ([] : Store) "Acme Co" []).2 "acme CO" =
      get_client (create_client ([] : Store) "Acme Co" []).2 "Acme Co" :=
  c9_safe_name_aliasing ([] : Store) "Acme Co" "acme CO" [] []
    (create_client ([] : Store) "Acme Co" []).2 (by decide) rfl

lemma mkBriefGenerator_ok_iff (c : ConfigEnv) (p : Option String) :
    (∃ g, mkBriefGenerator c p = Except.ok g) ↔ (∃ s, mkAIProvider c p = Except.ok s) := by
  cases hm : mkAIProvider c p with
  | ok s => simp [mkBriefGenerator, hm]
  | error e => simp [mkBriefGenerator, hm]

/-- C5: constructing the provider adapter (directly, or through the brief
generator which merely wraps it) with an explicit non-empty provider name
succeeds exactly when that name is a known provider whose credential is
present (truthy) in the configuration; otherwise it raises at construction
time.  mkAIProvider is a pure function of the configuration: no prompt is
built and no provider call is made. -/
theorem c5_provider_construction_credential (c : ConfigEnv) (p : String) (hp : p ≠ "") :
    ((∃ s, mkAIProvider c (some p) = Except.ok s) ↔
      (p ∈ known_providers ∧ cred_truthy c p = true)) ∧
    ((∃ g, mkBriefGenerator c (some p) = Except.ok g) ↔
      (p ∈ known_providers ∧ cred_truthy c p = true)) := by
  have hp' : (p != "") = true := by simp [hp]
  have main : (∃ s, mkAIProvider c (some p) = Except.ok s) ↔
      (p ∈ known_providers ∧ cred_truthy c p = true) := by
    by_cases h1 : p = "openai"
    · subst h1
      by_cases ht : opt_str_truthy (get_config c "OPENAI_API_KEY" none) = true
      · simp [mkAIProvider, build_api_keys, plookup, known_providers, cred_truthy,
          credential_key, ht]
      · simp [mkAIProvider, build_api_keys, plookup, known_providers, cred_truthy,
          credential_key, ht]
    · by_cases h2 : p = "claude"
      · subst h2
        by_cases ht : opt_str_truthy (get_config c "CLAUDE_API_KEY" none) = true
        · simp [mkAIProvider, build_api_keys, plookup, known_providers, cred_truthy,
            credential_key, ht]
        · simp [mkAIProvider, build_api_keys, plookup, known_providers, cred_truthy,
            credential_key, ht]
      · by_cases h3 : p = "grok"
        · subst h3
          by_cases ht : opt_str_truthy (get_config c "GROK_API_KEY" none) = true
          · simp [mkAIProvider, build_api_keys, plookup, known_providers, cred_truthy,
              credential_key, ht]
          · simp [mkAIProvider, build_api_keys, plookup, known_providers, cred_truthy,
              credential_key, ht]
        · by_cases h4 : p = "perplexity"
          · subst h4
            by_cases ht : opt_str_truthy (get_config c "PERPLEXITY_API_KEY" none) = true
            · simp [mkAIProvider, build_api_keys, plookup, known_providers, cred_truthy,
                credential_key, ht]
            · simp [mkAIProvider, build_api_keys, plookup, known_providers, cred_truthy,
                credential_key, ht]
          · by_cases h5 : p = "mistral"
            · subst h5
              by_cases ht : opt_str_truthy (get_config c "MISTRAL_API_KEY" none) = true
              · simp [mkAIProvider, build_api_keys, plookup, known_providers, cred_truthy,
                  credential_key, ht]
              · simp [mkAIProvider, build_api_keys, plookup, known_providers, cred_truthy,
                  credential_key, ht]
            · simp [mkAIProvider, build_api_keys, plookup, known_providers, hp',
                h1, h2, h3, h4, h5]
  exact ⟨main, (mkBriefGenerator_ok_iff c (some p)).trans main⟩

/-- Witness for C5 at concrete input: with only the openai credential
configured, construction with provider openai succeeds, both directly and
through the brief generator. -/
theorem c5_provider_construction_credential_witness :
    (∃ s, mkAIProvider config_ex (some "openai") = Except.ok s) ∧
    (∃ g, mkBriefGenerator config_ex (some "openai") = Except.ok g) := by
  obtain ⟨m1, m2⟩ := c5_provider_construction_credential config_ex "openai" (by decide)
  exact ⟨m1.mpr ⟨by decide, rfl⟩, m2.mpr ⟨by decide, rfl⟩⟩

lemma mem_ite_append (p x : String) (b : Prop) [Decidable b] (l : List String) :
    p ∈ (if b then l ++ [x] else l) ↔ (p ∈ l ∨ (b ∧ p = x)) := by
  by_cases hb : b
  · simp [hb]
  · simp [hb]

/-- C7: the static capability query returns exactly the known providers
whose credential is configured: membership in its result is equivalent to
being one of the five known providers with a truthy credential.  The query
is a pure function of the configuration and performs no network access. -/
theorem c7_list_available_providers_exact (c : ConfigEnv) (p : String) :
    p ∈ list_available_providers c ↔ (p ∈ known_providers ∧ cred_truthy c p = true) := by
  simp only [list_available_providers, mem_ite_append]
  constructor
  · rintro (((((hF | h1) | h2) | h3) | h4) | h5)
    · simp at hF
    · obtain ⟨hb, hpv⟩ := h1
      subst hpv
      exact ⟨by decide, hb⟩
    · obtain ⟨hb, hpv⟩ := h2
      subst hpv
      exact ⟨by decide, hb⟩
    · obtain ⟨hb, hpv⟩ := h3
      subst hpv
      exact ⟨by decide, hb⟩
    · obtain ⟨hb, hpv⟩ := h4
      subst hpv
      exact ⟨by decide, hb⟩
    · obtain ⟨hb, hpv⟩ := h5
      subst hpv
      exact ⟨by decide, hb⟩
  · rintro ⟨hmem, hcred⟩
    simp only [known_providers, List.mem_cons, List.mem_singleton] at hmem
    rcases hmem with h | h | h | h | h | h
    · subst h
      have hb : opt_str_truthy (get_config c "OPENAI_API_KEY" none) = true := hcred
      simp [hb]
    · subst h
      have hb : opt_str_truthy (get_config c "CLAUDE_API_KEY" none) = true := hcred
      simp [hb]
    · subst h
      have hb : opt_str_truthy (get_config c "GROK_API_KEY" none) = true := hcred
      simp [hb]
    · subst h
      have hb : opt_str_truthy (get_config c "PERPLEXITY_API_KEY" none) = true := hcred
      simp [hb]
    · subst h
      have hb : opt_str_truthy (get_config c "MISTRAL_API_KEY" none) = true := hcred
      simp [hb]
    · simp at h

/-- C10: in the requirements formatter a falsy value produces no line: an
empty word_count string, a zero images_required or internal_links_min, and
a false schema_required or cta_required each behave exactly as if the field
were absent from the requirements dictionary (so a stated minimum of zero
images is indistinguishable from the field being absent), and the formatted
text always ends with the fixed self-check line. -/
theorem c10_format_requirements_falsy_omitted (client_data : Client) :
    (plookup "word_count" client_data.requirements = some (PyVal.pyStr "") →
      format_requirements client_data =
        format_requirements (Client.mk client_data.client_name client_data.site
          client_data.restrictions (eraseKey "word_count" client_data.requirements))) ∧
    (plookup "images_required" client_data.requirements = some (PyVal.pyInt 0) →
      format_requirements client_data =
        format_requirements (Client.mk client_data.client_name client_data.site
          client_data.restrictions (eraseKey "images_required" client_data.requirements))) ∧
    (plookup "internal_links_min" client_data.requirements = some (PyVal.pyInt 0) →
      format_requirements client_data =
        format_requirements (Client.mk client_data.client_name client_data.site
          client_data.restrictions (eraseKey "internal_links_min" client_data.requirements))) ∧
    (plookup "schema_required" client_data.requirements = some (PyVal.pyBool false) →
      format_requirements client_data =
        format_requirements (Client.mk client_data.client_name client_data.site
          client_data.restrictions (eraseKey "schema_required" client_data.requirements))) ∧
    (plookup "cta_required" client_data.requirements = some (PyVal.pyBool false) →
      format_requirements client_data =
        format_requirements (Client.mk client_data.client_name client_data.site
          client_data.restrictions (eraseKey "cta_required" client_data.requirements))) ∧
    (∃ pre, format_requirements client_data = pre ++ requirements_self_check) := by
  refine ⟨?_, ?_, ?_, ?_, ?_, ⟨_, rfl⟩⟩
  · intro h
    have hv : pyGetD "word_count" client_data.requirements PyVal.pyNone = PyVal.pyStr "" := by
      simp only [pyGetD, h, Option.getD]
    have h0 : pyGetD "word_count" (eraseKey "word_count" client_data.requirements) PyVal.pyNone
        = PyVal.pyNone := pyGetD_erase_self _ _ _
    have e1 : pyGetD "readability_score" (eraseKey "word_count" client_data.requirements) PyVal.pyNone
        = pyGetD "readability_score" client_data.requirements PyVal.pyNone := pyGetD_erase_ne (by decide) _ _
    have e2 : pyGetD "tone" (eraseKey "word_count" client_data.requirements) PyVal.pyNone
        = pyGetD "tone" client_data.requirements PyVal.pyNone := pyGetD_erase_ne (by decide) _ _
    have e3 : pyGetD "mandatory_mentions" (eraseKey "word_count" client_data.requirements) PyVal.pyNone
        = pyGetD "mandatory_mentions" client_data.requirements PyVal.pyNone := pyGetD_erase_ne (by decide) _ _
    have e4 : pyGetD "schema_required" (eraseKey "word_count" client_data.requirements) PyVal.pyNone
        = pyGetD "schema_required" client_data.requirements PyVal.pyNone := pyGetD_erase_ne (by decide) _ _
    have e5 : pyGetD "images_required" (eraseKey "word_count" client_data.requirements) PyVal.pyNone
        = pyGetD "images_required" client_data.requirements PyVal.pyNone := pyGetD_erase_ne (by decide) _ _
    have e6 : pyGetD "cta_required" (eraseKey "word_count" client_data.requirements) PyVal.pyNone
        = pyGetD "cta_required" client_data.requirements PyVal.pyNone := pyGetD_erase_ne (by decide) _ _
    have e7 : pyGetD "internal_links_min" (eraseKey "word_count" client_data.requirements) PyVal.pyNone
        = pyGetD "internal_links_min" client_data.requirements PyVal.pyNone := pyGetD_erase_ne (by decide) _ _
    simp [format_requirements, e1, e2, e3, e4, e5, e6, e7, h0, hv, py_truthy]
  · intro h
    have hv : pyGetD "images_required" client_data.requirements PyVal.pyNone = PyVal.pyInt 0 := by
      simp only [pyGetD, h, Option.getD]
    have h0 : pyGetD "images_required" (eraseKey "images_required" client_data.requirements) PyVal.pyNone
        = PyVal.pyNone := pyGetD_erase_self _ _ _
    have e1 : pyGetD "word_count" (eraseKey "images_required" client_data.requirements) PyVal.pyNone
        = pyGetD "word_count" client_data.requirements PyVal.pyNone := pyGetD_erase_ne (by decide) _ _
    have e2 : pyGetD "readability_score" (eraseKey "images_required" client_data.requirements) PyVal.pyNone
        = pyGetD "readability_score" client_data.requirements PyVal.pyNone := pyGetD_erase_ne (by decide) _ _
    have e3 : pyGetD "tone" (eraseKey "images_required" client_data.requirements) PyVal.pyNone
        = pyGetD "tone" client_data.requirements PyVal.pyNone := pyGetD_erase_ne (by decide) _ _
    have e4 : pyGetD "mandatory_mentions" (eraseKey "images_required" client_data.requirements) PyVal.pyNone
        = pyGetD "mandatory_mentions" client_data.requirements PyVal.pyNone := pyGetD_erase_ne (by decide) _ _
    have e5 : pyGetD "schema_required" (eraseKey "images_required" client_data.requirements) PyVal.pyNone
        = pyGetD "schema_required" client_data.requirements PyVal.pyNone := pyGetD_erase_ne (by decide) _ _
    have e6 : pyGetD "cta_required" (eraseKey "images_required" client_data.requirements) PyVal.pyNone
        = pyGetD "cta_required" client_data.requirements PyVal.pyNone := pyGetD_erase_ne (by decide) _ _
    have e7 : pyGetD "internal_links_min" (eraseKey "images_required" client_data.requirements) PyVal.pyNone
        = pyGetD "internal_links_min" client_data.requirements PyVal.pyNone := pyGetD_erase_ne (by decide) _ _
    simp [format_requirements, e1, e2, e3, e4, e5, e6, e7, h0, hv, py_truthy]
  · intro h
    have hv : pyGetD "internal_links_min" client_data.requirements PyVal.pyNone = PyVal.pyInt 0 := by
      simp only [pyGetD, h, Option.getD]
    have h0 : pyGetD "internal_links_min" (eraseKey "internal_links_min" client_data.requirements) PyVal.pyNone
        = PyVal.pyNone := pyGetD_erase_self _ _ _
    have e1 : pyGetD "word_count" (eraseKey "internal_links_min" client_data.requirements) PyVal.pyNone
        = pyGetD "word_count" client_data.requirements PyVal.pyNone := pyGetD_erase_ne (by decide) _ _
    have e2 : pyGetD "readability_score" (eraseKey "internal_links_min" client_data.requirements) PyVal.pyNone
        = pyGetD "readability_score" client_data.requirements PyVal.pyNone := pyGetD_erase_ne (by decide) _ _
    have e3 : pyGetD "tone" (eraseKey "internal_links_min" client_data.requirements) PyVal.pyNone
        = pyGetD "tone" client_data.requirements PyVal.pyNone := pyGetD_erase_ne (by decide) _ _
    have e4 : pyGetD "mandatory_mentions" (eraseKey "internal_links_min" client_data.requirements) PyVal.pyNone
        = pyGetD "mandatory_mentions" client_data.requirements PyVal.pyNone := pyGetD_erase_ne (by decide) _ _
    have e5 : pyGetD "schema_required" (eraseKey "internal_links_min" client_data.requirements) PyVal.pyNone
        = pyGetD "schema_required" client_data.requirements PyVal.pyNone := pyGetD_erase_ne (by decide) _ _
    have e6 : pyGetD "images_required" (eraseKey "internal_links_min" client_data.requirements) PyVal.pyNone
        = pyGetD "images_required" client_data.requirements PyVal.pyNone := pyGetD_erase_ne (by decide) _ _
    have e7 : pyGetD "cta_required" (eraseKey "internal_links_min" client_data.requirements) PyVal.pyNone
        = pyGetD "cta_required" client_data.requirements PyVal.pyNone := pyGetD_erase_ne (by decide) _ _
    simp [format_requirements, e1, e2, e3, e4, e5, e6, e7, h0, hv, py_truthy]
  · intro h
    have hv : pyGetD "schema_required" client_data.requirements PyVal.pyNone = PyVal.pyBool false := by
      simp only [pyGetD, h, Option.getD]
    have h0 : pyGetD "schema_required" (eraseKey "schema_required" client_data.requirements) PyVal.pyNone
        = PyVal.pyNone := pyGetD_erase_self _ _ _
    have e1 : pyGetD "word_count" (eraseKey "schema_required" client_data.requirements) PyVal.pyNone
        = pyGetD "word_count" client_data.requirements PyVal.pyNone := pyGetD_erase_ne (by decide) _ _
    have e2 : pyGetD "readability_score" (eraseKey "schema_required" client_data.requirements) PyVal.pyNone
        = pyGetD "readability_score" client_data.requirements PyVal.pyNone := pyGetD_erase_ne (by decide) _ _
    have e3 : pyGetD "tone" (eraseKey "schema_required" client_data.requirements) PyVal.pyNone
        = pyGetD "tone" client_data.requirements PyVal.pyNone := pyGetD_erase_ne (by decide) _ _
    have e4 : pyGetD "mandatory_mentions" (eraseKey "schema_required" client_data.requirements) PyVal.pyNone
        = pyGetD "mandatory_mentions" client_data.requirements PyVal.pyNone := pyGetD_erase_ne (by decide) _ _
    have e5 : pyGetD "images_required" (eraseKey "schema_required" client_data.requirements) PyVal.pyNone
        = pyGetD "images_required" client_data.requirements PyVal.pyNone := pyGetD_erase_ne (by decide) _ _
    have e6 : pyGetD "cta_required" (eraseKey "schema_required" client_data.requirements) PyVal.pyNone
        = pyGetD "cta_required" client_data.requirements PyVal.pyNone := pyGetD_erase_ne (by decide) _ _
    have e7 : pyGetD "internal_links_min" (eraseKey "schema_required" client_data.requirements) PyVal.pyNone
        = pyGetD "internal_links_min" client_data.requirements PyVal.pyNone := pyGetD_erase_ne (by decide) _ _
    simp [format_requirements, e1, e2, e3, e4, e5, e6, e7, h0, hv, py_truthy]
  · intro h
    have hv : pyGetD "cta_required" client_data.requirements PyVal.pyNone = PyVal.pyBool false := by
      simp only [pyGetD, h, Option.getD]
    have h0 : pyGetD "cta_required" (eraseKey "cta_required" client_data.requirements) PyVal.pyNone
        = PyVal.pyNone := pyGetD_erase_self _ _ _
    have e1 : pyGetD "word_count" (eraseKey "cta_required" client_data.requirements) PyVal.pyNone
        = pyGetD "word_count" client_data.requirements PyVal.pyNone := pyGetD_erase_ne (by decide) _ _
    have e2 : pyGetD "readability_score" (eraseKey "cta_required" client_data.requirements) PyVal.pyNone
        = pyGetD "readability_score" client_data.requirements PyVal.pyNone := pyGetD_erase_ne (by decide) _ _
    have e3 : pyGetD "tone" (eraseKey "cta_required" client_data.requirements) PyVal.pyNone
        = pyGetD "tone" client_data.requirements PyVal.pyNone := pyGetD_erase_ne (by decide) _ _
    have e4 : pyGetD "mandatory_mentions" (eraseKey "cta_required" client_data.requirements) PyVal.pyNone
        = pyGetD "mandatory_mentions" client_data.requirements PyVal.pyNone := pyGetD_erase_ne (by decide) _ _
    have e5 : pyGetD "schema_required" (eraseKey "cta_required" client_data.requirements) PyVal.pyNone
        = pyGetD "schema_required" client_data.requirements PyVal.pyNone := pyGetD_erase_ne (by decide) _ _
    have e6 : pyGetD "images_required" (eraseKey "cta_required" client_data.requirements) PyVal.pyNone
        = pyGetD "images_required" client_data.requirements PyVal.pyNone := pyGetD_erase_ne (by decide) _ _
    have e7 : pyGetD "internal_links_min" (eraseKey "cta_required" client_data.requirements) PyVal.pyNone
        = pyGetD "internal_links_min" client_data.requirements PyVal.pyNone := pyGetD_erase_ne (by decide) _ _
    simp [format_requirements, e1, e2, e3, e4, e5, e6, e7, h0, hv, py_truthy]

/-- Witness for C10 at concrete input: client_ex has all five falsy
requirement values, and each one formats exactly as if absent. -/
theorem c10_format_requirements_falsy_omitted_witness :
    (format_requirements client_ex =
      format_requirements (Client.mk client_ex.client_name client_ex.site
        client_ex.restrictions (eraseKey "word_count" client_ex.requirements))) ∧
    (format_requirements client_ex =
      format_requirements (Client.mk client_ex.client_name client_ex.site
        client_ex.restrictions (eraseKey "images_required" client_ex.requirements))) ∧
    (format_requirements client_ex =
      format_requirements (Client.mk client_ex.client_name client_ex.site
        client_ex.restrictions (eraseKey "internal_links_min" client_ex.requirements))) ∧
    (format_requirements client_ex =
      format_requirements (Client.mk client_ex.client_name client_ex.site
        client_ex.restrictions (eraseKey "schema_required" client_ex.requirements))) ∧
    (format_requirements client_ex =
      format_requirements (Client.mk client_ex.client_name client_ex.site
        client_ex.restrictions (eraseKey "cta_required" client_ex.requirements))) ∧
    (∃ pre, format_requirements client_ex = pre ++ requirements_self_check) := by
  obtain ⟨h1, h2, h3, h4, h5, h6⟩ := c10_format_requirements_falsy_omitted client_ex
  exact ⟨h1 rfl, h2 rfl, h3 rfl, h4 rfl, h5 rfl, h6⟩
